import Mathlib

/-!
Verification of the WASM GDSII parsing glue (mem-file byte cursor,
library/structure/element caches) against its natural-language specification.

The development shallowly embeds the C sources:
  * `mem-file.h` / `mem-file.c` — the in-memory byte cursor (`mem_file_t`)
    with its `fread`/`fseek`/big-endian decoding helpers;
  * `wasm-element-cache.c` — library-cache construction, the structure scan,
    and the lazy per-structure element decoder.

Bytes are modelled as `Nat` (well-formed buffers carry values `< 256`),
machine doubles as exact rationals `ℚ` (every double stored by this parser is
either an exactly-converted 32-bit integer, an Excess-64 decode, or `0.0`
from `memset`), C `size_t`/`uint16_t` values as `Nat` with explicit
wrap-around where the C arithmetic can overflow, and C `long`/`int` as `Int`.
Bounded `while` loops become structurally recursive functions on an explicit
fuel argument; callers pass fuel `size + 1`, which dominates the loop's
iteration count since every continuing iteration advances `pos` by at least 4.
-/

namespace GdsWasm

/-- The `mem_file_t` handle from `mem-file.h`: a read-only byte buffer with a
cursor position and `eof`/`error` flags.  (The unused `is_wasm_memory`,
`is_closed` and internal buffering fields play no role in any code path
modelled here: `is_closed` is only set by `mem_fclose`, which none of the
embedded functions call.) -/
structure MemFile where
  data : List Nat
  position : Nat
  eofFlag : Bool
  errorFlag : Bool
deriving DecidableEq

/-- `mem_fopen` (read mode): fails on an empty buffer, otherwise starts the
cursor at position 0 with clear flags. -/
def mem_fopen (data : List Nat) : Option MemFile :=
  if data.length = 0 then none
  else some { data := data, position := 0, eofFlag := false, errorFlag := false }

/-- `mem_fread(ptr, size, count, file)` from `mem-file.h` lines 123-146.
Returns `(elements_read, bytes_copied, file')`.  Note the C copies
`min(size*count, available)` bytes — a short read both returns and consumes
the remaining bytes — and sets the EOF flag whenever fewer than the requested
bytes were available. -/
def mem_fread (sz count : Nat) (f : MemFile) : Nat × List Nat × MemFile :=
  if sz = 0 ∨ count = 0 then (0, [], f)
  else
    let total := sz * count
    let available := f.data.length - f.position
    if available = 0 then (0, [], { f with eofFlag := true })
    else
      let toRead := min total available
      let bytes := (f.data.drop f.position).take toRead
      (toRead / sz, bytes,
        { f with position := f.position + toRead,
                 eofFlag := if toRead < total then true else f.eofFlag })

/-- The three seek origins accepted by `mem_fseek` (any other `whence` value
makes the C function return -1 before resolving a target position). -/
inductive Whence
  | seekSet
  | seekCur
  | seekEnd
deriving DecidableEq

/-- The `new_position` computed by `mem_fseek`'s `switch (whence)`. -/
def seekTarget (f : MemFile) (offset : Int) : Whence → Int
  | .seekSet => offset
  | .seekCur => (f.position : Int) + offset
  | .seekEnd => (f.data.length : Int) + offset

/-- `mem_fseek` from `mem-file.h` lines 169-198: resolves the target, rejects
targets outside `[0, size]` (setting the error flag, leaving the position
unchanged), otherwise moves the cursor and clears the EOF flag. -/
def mem_fseek (f : MemFile) (offset : Int) (whence : Whence) : Int × MemFile :=
  let newPosition := seekTarget f offset whence
  if newPosition < 0 ∨ newPosition > (f.data.length : Int) then
    (-1, { f with errorFlag := true })
  else
    (0, { f with position := newPosition.toNat, eofFlag := false })

/-- The big-endian 16-bit value `bytes[0] << 8 | bytes[1]`; for byte values
`< 256` the C shift-and-or equals this base-256 sum. -/
def be16val (bs : List Nat) : Nat :=
  bs.getD 0 0 * 256 + bs.getD 1 0

/-- The big-endian 32-bit value
`bytes[0]<<24 | bytes[1]<<16 | bytes[2]<<8 | bytes[3]`; for byte values
`< 256` the C shift-and-or equals this base-256 accumulation. -/
def be32val (bs : List Nat) : Nat :=
  ((bs.getD 0 0 * 256 + bs.getD 1 0) * 256 + bs.getD 2 0) * 256 + bs.getD 3 0

/-- Reinterpreting a `uint32_t` bit pattern as `int32_t` (the
`(uint32_t*)&x_int` casts in the XY decoder). -/
def toInt32 (n : Nat) : Int :=
  if n < 2 ^ 31 then (n : Int) else (n : Int) - 2 ^ 32

/-- `mem_fread_be16`: reads 2 bytes, failing (without a value) when fewer
than 2 were available; the consumed bytes stay consumed either way. -/
def mem_fread_be16 (f : MemFile) : Option Nat × MemFile :=
  let r := mem_fread 1 2 f
  if r.1 = 2 then (some (be16val r.2.1), r.2.2) else (none, r.2.2)

/-- `mem_fread_be32`: reads 4 bytes big-endian. -/
def mem_fread_be32 (f : MemFile) : Option Nat × MemFile :=
  let r := mem_fread 1 4 f
  if r.1 = 4 then (some (be32val r.2.1), r.2.2) else (none, r.2.2)

/-- Modelled from the spec: `excess64_to_ieee754` (declared in
`Basic/gdsio/convert_float_gcc.h`, which is not among the provided sources;
`mem-file.h`'s static-inline `mem_fread_be64` hands it the 8 payload bytes in
big-endian order).  GDSII Excess-64 format: bit 0 (the most significant bit
of byte 0) is the sign, bits 1-7 of byte 0 the base-16 exponent biased by 64,
bytes 1-7 the 56-bit mantissa numerator of a fraction over `2^56`:
`value = (-1)^sign * (mantissa / 2^56) * 16^(exponent - 64)`.
The model returns the exact rational value. -/
def excess64_to_ieee754 (bs : List Nat) : ℚ :=
  let b0 := bs.getD 0 0
  let sign : ℚ := if b0 / 128 = 1 then -1 else 1
  let expo : Int := (b0 % 128 : Int) - 64
  let mant : Nat :=
    ((((((bs.getD 1 0 * 256 + bs.getD 2 0) * 256 + bs.getD 3 0) * 256 +
      bs.getD 4 0) * 256 + bs.getD 5 0) * 256 + bs.getD 6 0) * 256 + bs.getD 7 0)
  sign * ((mant : ℚ) / 2 ^ 56) * (16 : ℚ) ^ expo

/-- `mem_fread_be64` (the static-inline definition of `mem-file.h` lines
335-350, the one every includer of the header — in particular
`wasm-element-cache.c` — actually compiles against): reads 8 bytes and feeds
them, in buffer order, to the Excess-64 converter. -/
def mem_fread_be64 (f : MemFile) : Option ℚ × MemFile :=
  let r := mem_fread 1 8 f
  if r.1 = 8 then (some (excess64_to_ieee754 r.2.1), r.2.2) else (none, r.2.2)

/-- `mem_fread_gdsii_header`: 2-byte big-endian total length, then 2-byte
big-endian record type; the returned payload length is the C `uint16_t`
subtraction `total_length - 4`, which wraps modulo `2^16` when
`total_length < 4`. -/
def mem_fread_gdsii_header (f : MemFile) : Option (Nat × Nat) × MemFile :=
  let r1 := mem_fread_be16 f
  match r1.1 with
  | none => (none, r1.2)
  | some totalLength =>
    let r2 := mem_fread_be16 r1.2
    match r2.1 with
    | none => (none, r2.2)
    | some recordType =>
      (some (recordType, (totalLength + 65532) % 65536), r2.2)

/-! GDSII record type codes (`wasm-element-cache.c` lines 22-56). -/

def HEADER : Nat := 0x0002
def BGNLIB : Nat := 0x0102
def LIBNAME : Nat := 0x0206
def UNITS : Nat := 0x0305
def ENDLIB : Nat := 0x0400
def BGNSTR : Nat := 0x0502
def STRNAME : Nat := 0x0606
def ENDSTR : Nat := 0x0700
def BOUNDARY : Nat := 0x0800
def PATH : Nat := 0x0900
def SREF : Nat := 0x0a00
def AREF : Nat := 0x0b00
def TEXT : Nat := 0x0c00
def LAYER : Nat := 0x0d02
def DATATYPE : Nat := 0x0e02
def XY : Nat := 0x1003
def ENDEL : Nat := 0x1100
def ELFLAGS : Nat := 0x2601
def PLEX : Nat := 0x2f03
def BOX : Nat := 0x2d00
def NODE : Nat := 0x1500

/-! The cache data model (`wasm-element-cache.h`).  All numeric fields start
at zero: the C zero-initializes every cache object with `memset`. -/

/-- `element_kind` (from `gdstypes.h`, as used by
`map_record_type_to_element_kind`). -/
inductive ElementKind
  | boundary
  | path
  | text
  | sref
  | aref
  | box
  | node
deriving DecidableEq

/-- `map_record_type_to_element_kind` (`wasm-element-cache.c` lines 62-73);
unknown opener types fall back to `GDS_BOUNDARY`. -/
def map_record_type_to_element_kind (recordType : Nat) : ElementKind :=
  if recordType = BOUNDARY then .boundary
  else if recordType = PATH then .path
  else if recordType = TEXT then .text
  else if recordType = SREF then .sref
  else if recordType = AREF then .aref
  else if recordType = BOX then .box
  else if recordType = NODE then .node
  else .boundary

/-- `wasm_polygon_t`: flattened vertex array `[x1, y1, x2, y2, ...]` plus
its count (the `capacity` field always equals `vertex_count` here). -/
structure WasmPolygon where
  vertices : List ℚ := []
  vertex_count : Nat := 0
deriving DecidableEq

/-- `wasm_text_data_t` (the `text` byte array is never written by the
embedded decoder, which has no STRING case, so it is omitted). -/
structure TextData where
  x : ℚ := 0
  y : ℚ := 0
  text_type : Nat := 0
  presentation : Nat := 0
deriving DecidableEq

/-- `wasm_reference_data_t`; `corners` is the 6-entry double array (only
entries 0-3 are ever written, by the AREF XY case). -/
structure ReferenceData where
  x : ℚ := 0
  y : ℚ := 0
  nrow : Nat := 0
  ncol : Nat := 0
  corners : List ℚ := [0, 0, 0, 0, 0, 0]
deriving DecidableEq

/-- `wasm_cached_element_t` (fields the embedded code never writes, such as
`btype`/`ntype`/`present`, are omitted; they stay zero in the C as well). -/
structure CachedElement where
  kind : ElementKind := .boundary
  layer : Nat := 0
  dtype : Nat := 0
  ptype : Nat := 0
  elflags : Nat := 0
  plex : Int := 0
  strans_flags : Nat := 0
  magnification : ℚ := 0
  rotation_angle : ℚ := 0
  width : ℚ := 0
  begin_extension : ℚ := 0
  end_extension : ℚ := 0
  polygon_count : Nat := 0
  polygons : List WasmPolygon := []
  text_data : TextData := {}
  reference_data : ReferenceData := {}
  property_count : Nat := 0
  bounds : List ℚ := [0, 0, 0, 0]
deriving DecidableEq

/-- `wasm_structure_cache_t`. -/
structure StructureCache where
  name : List Nat := []
  element_count : Nat := 0
  elements : List CachedElement := []
  file_offset : Nat := 0
  is_fully_parsed : Bool := false
deriving DecidableEq

/-- `wasm_library_cache_t`.  `structuresAllocated` models the
`cache->structures` pointer being non-NULL (the list itself models the
allocated array, whose length is the capacity). -/
structure LibraryCache where
  name : List Nat := []
  user_units_per_db_unit : ℚ := 0
  meters_per_db_unit : ℚ := 0
  structure_count : Nat := 0
  structuresAllocated : Bool := false
  structures : List StructureCache := []
  data_size : Nat
  memFile : MemFile
deriving DecidableEq

/-- A zero library cache over an empty buffer, used only as the default for
`Option.getD` in concrete evaluations. -/
def emptyLib : LibraryCache :=
  { data_size := 0,
    memFile := { data := [], position := 0, eofFlag := false, errorFlag := false } }

/-! ### Library-cache construction (`wasm_create_library_cache`) -/

/-- The UNITS scan of `wasm_create_library_cache` (lines 167-188): walks
records from `pos` looking for a UNITS record with a 16-byte payload, reading
the two Excess-64 reals when found, stopping at ENDLIB, a failed header read,
or the end of the buffer.  A UNITS record of any other payload length falls
into the final `else` and is skipped like any other record.  Returns the
(user units, meters) pair — fields left at their zero initialization when
never assigned — and the final file state. -/
def unitsLoop : Nat → Nat → Nat → MemFile → ℚ → ℚ → ℚ × ℚ × MemFile
  | 0, _, _, f, uu, mm => (uu, mm, f)
  | fuel + 1, size, pos, f, uu, mm =>
    if pos + 4 ≤ size then
      let r := mem_fread_gdsii_header f
      match r.1 with
      | none => (uu, mm, r.2)
      | some (recordType, recordLength) =>
        if recordType = UNITS ∧ recordLength = 16 then
          let ru := mem_fread_be64 r.2
          match ru.1 with
          | none => (uu, mm, ru.2)
          | some u =>
            let rm := mem_fread_be64 ru.2
            match rm.1 with
            | none => (u, mm, rm.2)
            | some m => (u, m, rm.2)
        else if recordType = ENDLIB then (uu, mm, r.2)
        else
          let pos' := pos + 4 + recordLength
          let f' := (mem_fseek r.2 (pos' : Int) .seekSet).2
          unitsLoop fuel size pos' f' uu mm
    else (uu, mm, f)

/-- One "read a required record header, check its type, skip its payload"
block of `wasm_create_library_cache` (the HEADER block, lines 131-137, and
the BGNLIB block, lines 140-146): fails when the header cannot be read or the
type mismatches, otherwise advances the running byte offset past the record
and seeks there (the C ignores the seek's return value). -/
def skipRecord (expectedType pos : Nat) (f : MemFile) : Option (Nat × MemFile) :=
  let r := mem_fread_gdsii_header f
  match r.1 with
  | none => none
  | some (t, l) =>
    if ¬ t = expectedType then none
    else
      let pos' := pos + 4 + l
      some (pos', (mem_fseek r.2 (pos' : Int) .seekSet).2)

/-- The LIBNAME block of `wasm_create_library_cache` (lines 149-164): read
and check the header, copy `min(payload_length, 255)` name bytes (failing
when that many cannot be read), then skip past the whole record. -/
def readLibname (pos : Nat) (f : MemFile) : Option (List Nat × Nat × MemFile) :=
  let r := mem_fread_gdsii_header f
  match r.1 with
  | none => none
  | some (t, l) =>
    if ¬ t = LIBNAME then none
    else
      let nameLen := if l < 255 then l else 255
      let rn := mem_fread 1 nameLen r.2
      if ¬ rn.1 = nameLen then none
      else
        let pos' := pos + 4 + l
        some (rn.2.1, pos', (mem_fseek rn.2.2 (pos' : Int) .seekSet).2)

/-- `wasm_create_library_cache` (lines 104-194): reads HEADER, BGNLIB and
LIBNAME records (failing on a type mismatch or a failed read), copies at most
255 LIBNAME payload bytes into the name, scans for UNITS, then rewinds the
cursor.  The C's early-return failure paths are encoded with `Option.bind`;
malloc failures are not modelled (allocation always succeeds). -/
def wasm_create_library_cache (data : List Nat) : Option LibraryCache :=
  if data.length = 0 then none
  else
    (mem_fopen data).bind fun f0 =>
    (skipRecord HEADER 0 f0).bind fun r1 =>
    (skipRecord BGNLIB r1.1 r1.2).bind fun r2 =>
    (readLibname r2.1 r2.2).bind fun r3 =>
    let ru := unitsLoop (data.length + 1) data.length r3.2.1 r3.2.2 0 0
    let f4 := (mem_fseek ru.2.2 0 .seekSet).2
    some { name := r3.1,
           user_units_per_db_unit := ru.1,
           meters_per_db_unit := ru.2.1,
           structure_count := 0,
           structuresAllocated := false,
           structures := [],
           data_size := data.length,
           memFile := f4 }

/-! ### Structure scan (`wasm_parse_library_structures`) -/

/-- First pass of `wasm_parse_library_structures` (lines 256-267): count the
BGNSTR records, skipping every record by its declared length. -/
def countStructsLoop : Nat → Nat → Nat → MemFile → Nat → Nat × MemFile
  | 0, _, _, f, count => (count, f)
  | fuel + 1, size, pos, f, count =>
    if pos + 4 ≤ size then
      let r := mem_fread_gdsii_header f
      match r.1 with
      | none => (count, r.2)
      | some (recordType, recordLength) =>
        let count' := if recordType = BGNSTR then count + 1 else count
        let pos' := pos + 4 + recordLength
        let f' := (mem_fseek r.2 (pos' : Int) .seekSet).2
        countStructsLoop fuel size pos' f' count'
    else (count, f)

/-- Second pass of `wasm_parse_library_structures` (lines 287-322): for each
BGNSTR record, store its byte offset, then expect a STRNAME record right
after it; when the name bytes can be read the slot is completed and
`current` advances.  When the following record is not a STRNAME (or its
header cannot be read) the C does not advance `pos` past it, so the next
iteration re-reads at `pos` while the file cursor is 4 bytes further — the
model mirrors this by keeping `pos` and the file state separate. -/
def fillStructsLoop : Nat → Nat → Nat → Nat → MemFile → List StructureCache → Nat →
    List StructureCache × Nat × MemFile
  | 0, _, _, _, f, strs, current => (strs, current, f)
  | fuel + 1, size, count, pos, f, strs, current =>
    if pos + 4 ≤ size ∧ current < count then
      let r := mem_fread_gdsii_header f
      match r.1 with
      | none => (strs, current, r.2)
      | some (recordType, recordLength) =>
        if recordType = BGNSTR then
          let strs1 := strs.set current { strs.getD current {} with file_offset := pos }
          let pos1 := pos + 4 + recordLength
          let f1 := (mem_fseek r.2 (pos1 : Int) .seekSet).2
          if pos1 + 4 ≤ size then
            let rn := mem_fread_gdsii_header f1
            match rn.1 with
            | none => fillStructsLoop fuel size count pos1 rn.2 strs1 current
            | some (nameType, nameLength) =>
              if nameType = STRNAME then
                let nameLen := if nameLength < 255 then nameLength else 255
                let rb := mem_fread 1 nameLen rn.2
                let strs2 :=
                  if rb.1 = nameLen then
                    strs1.set current { strs1.getD current {} with name := rb.2.1 }
                  else strs1
                let current' := if rb.1 = nameLen then current + 1 else current
                let pos2 := pos1 + 4 + nameLength
                let f2 := (mem_fseek rb.2.2 (pos2 : Int) .seekSet).2
                fillStructsLoop fuel size count pos2 f2 strs2 current'
              else fillStructsLoop fuel size count pos1 rn.2 strs1 current
          else fillStructsLoop fuel size count pos1 f1 strs1 current
        else
          let pos' := pos + 4 + recordLength
          let f' := (mem_fseek r.2 (pos' : Int) .seekSet).2
          fillStructsLoop fuel size count pos' f' strs current
    else (strs, current, f)

/-- `wasm_parse_library_structures` (lines 244-326): a no-op returning 0 when
the structure array already exists; otherwise counts BGNSTR records, returns
0 without allocating when none were found, else allocates `count + 16`
zeroed slots and fills them, keeping as `structure_count` the number of
completed BGNSTR/STRNAME pairs. -/
def wasm_parse_library_structures (cache : LibraryCache) : LibraryCache × Int :=
  if cache.structuresAllocated then (cache, 0)
  else
    let f0 := (mem_fseek cache.memFile 0 .seekSet).2
    let rc := countStructsLoop (cache.data_size + 1) cache.data_size 0 f0 0
    if rc.1 = 0 then ({ cache with memFile := rc.2 }, 0)
    else
      let strs0 := List.replicate (rc.1 + 16) ({} : StructureCache)
      let f1 := (mem_fseek rc.2 0 .seekSet).2
      let rf := fillStructsLoop (cache.data_size + 1) cache.data_size rc.1 0 f1 strs0 0
      ({ cache with structuresAllocated := true,
                    structures := rf.1,
                    structure_count := rf.2.1,
                    memFile := rf.2.2 }, 0)

/-! ### Lazy element parsing (`wasm_parse_structure_elements`) -/

/-- Is the record one of the seven element-opening types (line 410-412)? -/
def isElementRecord (recordType : Nat) : Prop :=
  recordType = BOUNDARY ∨ recordType = PATH ∨ recordType = TEXT ∨
  recordType = SREF ∨ recordType = AREF ∨ recordType = BOX ∨ recordType = NODE

instance (recordType : Nat) : Decidable (isElementRecord recordType) := by
  unfold isElementRecord; infer_instance

/-- Element-counting pass (lines 398-418): from the structure's offset, flip
`in_structure` at BGNSTR, stop at the first ENDSTR seen while inside, and
count element-opening records seen while inside. -/
def countElemsLoop : Nat → Nat → Nat → MemFile → Bool → Nat → Nat × MemFile
  | 0, _, _, f, _, count => (count, f)
  | fuel + 1, size, pos, f, inStructure, count =>
    if pos + 4 ≤ size then
      let r := mem_fread_gdsii_header f
      match r.1 with
      | none => (count, r.2)
      | some (recordType, recordLength) =>
        if recordType = ENDSTR ∧ inStructure then (count, r.2)
        else
          let inStructure' := if recordType = BGNSTR then true else inStructure
          let count' :=
            if ¬ recordType = BGNSTR ∧ ¬ recordType = ENDSTR ∧
                inStructure ∧ isElementRecord recordType
            then count + 1 else count
          let pos' := pos + 4 + recordLength
          let f' := (mem_fseek r.2 (pos' : Int) .seekSet).2
          countElemsLoop fuel size pos' f' inStructure' count'
    else (count, f)

/-- `calculate_bounds_from_vertices`' loop (lines 84-92), iterating indices
`i = first, first+1, ...` for `steps` steps over the flattened array. -/
def boundsLoopAux : Nat → Nat → List ℚ → ℚ × ℚ × ℚ × ℚ → ℚ × ℚ × ℚ × ℚ
  | 0, _, _, st => st
  | steps + 1, i, vs, (mnx, mny, mxx, mxy) =>
    let x := vs.getD (i * 2) 0
    let y := vs.getD (i * 2 + 1) 0
    boundsLoopAux steps (i + 1) vs
      (min mnx x, min mny y, max mxx x, max mxy y)

/-- `calculate_bounds_from_vertices` (lines 75-98): `[0,0,0,0]` for an empty
vertex list, otherwise componentwise min/max starting from vertex 0. -/
def calculate_bounds_from_vertices (vertices : List ℚ) (vertexCount : Nat) : List ℚ :=
  if vertexCount = 0 then [0, 0, 0, 0]
  else
    let v0 := vertices.getD 0 0
    let v1 := vertices.getD 1 0
    let st := boundsLoopAux (vertexCount - 1) 1 vertices (v0, v1, v0, v1)
    [st.1, st.2.1, st.2.2.1, st.2.2.2]

/-- The vertex-reading loop of the XY case (lines 519-525): `vertexCount`
pairs of big-endian 32-bit signed integers, each converted exactly to a
double, flattened as `[x1, y1, x2, y2, ...]`.  The C ignores the success
flag of `mem_fread_be32` and would use an uninitialized local on a short
read; the model substitutes 0 for that unspecified value (no theorem below
depends on this path). -/
def readPairsFlat : Nat → MemFile → List ℚ × MemFile
  | 0, f => ([], f)
  | k + 1, f =>
    let rx := mem_fread_be32 f
    let ry := mem_fread_be32 rx.2
    let x : ℚ := (toInt32 (rx.1.getD 0) : ℚ)
    let y : ℚ := (toInt32 (ry.1.getD 0) : ℚ)
    let rest := readPairsFlat k ry.2
    (x :: y :: rest.1, rest.2)

/-- The AREF bounds chain (lines 582-604): min/max over origin and the two
array-vector endpoints, written exactly as the C's comparison cascade. -/
def arefBounds (ox oy c0 c1 c2 c3 : ℚ) : List ℚ :=
  let mnx := min (min ox c0) c2
  let mxx := max (max ox c0) c2
  let mny := min (min oy c1) c3
  let mxy := max (max oy c1) c3
  [mnx, mny, mxx, mxy]

/-- The XY sub-record case of the element decoder (lines 500-607):
`vertex_count = prop_length / 8`; polygon kinds read all pairs into a single
polygon and compute bounds; TEXT and SREF read one pair as the position;
AREF reads three pairs (origin plus the column and row endpoints, stored in
`corners[0..3]`).  Payload lengths below 8 are ignored. -/
def applyXY (el : CachedElement) (propLength : Nat) (f : MemFile) :
    CachedElement × MemFile :=
  if 8 ≤ propLength then
    let vertexCount := propLength / 8
    if el.kind = .boundary ∨ el.kind = .path ∨ el.kind = .box ∨ el.kind = .node then
      if 0 < vertexCount then
        let rv := readPairsFlat vertexCount f
        ({ el with polygon_count := 1,
                   polygons := [{ vertices := rv.1, vertex_count := vertexCount }],
                   bounds := calculate_bounds_from_vertices rv.1 vertexCount },
         rv.2)
      else (el, f)
    else if el.kind = .text then
      if 1 ≤ vertexCount then
        let rx := mem_fread_be32 f
        let ry := mem_fread_be32 rx.2
        let x : ℚ := (toInt32 (rx.1.getD 0) : ℚ)
        let y : ℚ := (toInt32 (ry.1.getD 0) : ℚ)
        ({ el with text_data := { el.text_data with x := x, y := y },
                   bounds := [x, y, x, y] }, ry.2)
      else (el, f)
    else if el.kind = .sref then
      if 1 ≤ vertexCount then
        let rx := mem_fread_be32 f
        let ry := mem_fread_be32 rx.2
        let x : ℚ := (toInt32 (rx.1.getD 0) : ℚ)
        let y : ℚ := (toInt32 (ry.1.getD 0) : ℚ)
        ({ el with reference_data := { el.reference_data with x := x, y := y },
                   bounds := [x, y, x, y] }, ry.2)
      else (el, f)
    else if el.kind = .aref then
      if 3 ≤ vertexCount then
        let r1x := mem_fread_be32 f
        let r1y := mem_fread_be32 r1x.2
        let ox : ℚ := (toInt32 (r1x.1.getD 0) : ℚ)
        let oy : ℚ := (toInt32 (r1y.1.getD 0) : ℚ)
        let r2x := mem_fread_be32 r1y.2
        let r2y := mem_fread_be32 r2x.2
        let c0 : ℚ := (toInt32 (r2x.1.getD 0) : ℚ)
        let c1 : ℚ := (toInt32 (r2y.1.getD 0) : ℚ)
        let r3x := mem_fread_be32 r2y.2
        let r3y := mem_fread_be32 r3x.2
        let c2 : ℚ := (toInt32 (r3x.1.getD 0) : ℚ)
        let c3 : ℚ := (toInt32 (r3y.1.getD 0) : ℚ)
        let rd :=
          { el.reference_data with
              x := ox
              y := oy
              corners := [c0, c1, c2, c3,
                el.reference_data.corners.getD 4 0,
                el.reference_data.corners.getD 5 0] }
        ({ el with reference_data := rd,
                   bounds := arefBounds ox oy c0 c1 c2 c3 }, r3y.2)
      else (el, f)
    else (el, f)
  else (el, f)

/-- The per-element sub-record loop (lines 468-618): read sub-record headers
until ENDEL, dispatching on the type.  LAYER/DATATYPE/ELFLAGS require a
2-byte payload and PLEX a 4-byte one; their reads leave the field unchanged
on a short read (the C writes through the pointer only on success, and the
`layer_set`/`dtype_set` bookkeeping is a semantic no-op because the memset
default already is 0).  Unknown types are skipped by seeking past their
payload.  Returns the element, the final `pos` (pointing at the ENDEL
record when one was found), and the file state. -/
def propsLoop : Nat → Nat → Nat → MemFile → CachedElement →
    CachedElement × Nat × MemFile
  | 0, _, pos, f, el => (el, pos, f)
  | fuel + 1, size, pos, f, el =>
    if pos + 4 ≤ size then
      let r := mem_fread_gdsii_header f
      match r.1 with
      | none => (el, pos, r.2)
      | some (propType, propLength) =>
        if propType = ENDEL then (el, pos, r.2)
        else
          let step : CachedElement × MemFile :=
            if propType = LAYER then
              if propLength = 2 then
                let rv := mem_fread_be16 r.2
                ({ el with layer := rv.1.getD el.layer }, rv.2)
              else (el, r.2)
            else if propType = DATATYPE then
              if propLength = 2 then
                let rv := mem_fread_be16 r.2
                ({ el with dtype := rv.1.getD el.dtype }, rv.2)
              else (el, r.2)
            else if propType = ELFLAGS then
              if propLength = 2 then
                let rv := mem_fread_be16 r.2
                ({ el with elflags := rv.1.getD el.elflags }, rv.2)
              else (el, r.2)
            else if propType = PLEX then
              if propLength = 4 then
                let rv := mem_fread_be32 r.2
                ({ el with plex := match rv.1 with
                                   | some v => toInt32 v
                                   | none => el.plex }, rv.2)
              else (el, r.2)
            else if propType = XY then
              applyXY el propLength r.2
            else
              (el, (mem_fseek r.2 ((pos + 4 + propLength : Nat) : Int) .seekSet).2)
          let pos' := pos + 4 + propLength
          let f' := (mem_fseek step.2 (pos' : Int) .seekSet).2
          propsLoop fuel size pos' f' step.1
    else (el, pos, f)

/-- Element-decoding pass (lines 440-629): like the counting pass, but each
element-opening record seen inside the structure seeds a zeroed element with
its mapped kind, skips the 4-byte opener header (the opener's payload length
is applied only after the sub-record loop, line 627), runs the sub-record
loop, stores the element, and advances `current`. -/
def decodeElemsLoop : Nat → Nat → Nat → Nat → MemFile → List CachedElement →
    Nat → Bool → List CachedElement × Nat × MemFile
  | 0, _, _, _, f, elems, current, _ => (elems, current, f)
  | fuel + 1, size, count, pos, f, elems, current, inStructure =>
    if pos + 4 ≤ size ∧ current < count then
      let r := mem_fread_gdsii_header f
      match r.1 with
      | none => (elems, current, r.2)
      | some (recordType, recordLength) =>
        if recordType = ENDSTR ∧ inStructure then (elems, current, r.2)
        else if ¬ recordType = BGNSTR ∧ ¬ recordType = ENDSTR ∧
            inStructure ∧ current < count ∧ isElementRecord recordType then
          let el0 := { elems.getD current {} with
                       kind := map_record_type_to_element_kind recordType }
          let pos1 := pos + 4
          let f1 := (mem_fseek r.2 (pos1 : Int) .seekSet).2
          let rp := propsLoop (size + 1) size pos1 f1 el0
          let elems' := elems.set current rp.1
          let pos2 := rp.2.1 + 4 + recordLength
          let f2 := (mem_fseek rp.2.2 (pos2 : Int) .seekSet).2
          decodeElemsLoop fuel size count pos2 f2 elems' (current + 1) inStructure
        else
          let inStructure' := if recordType = BGNSTR then true else inStructure
          let pos' := pos + 4 + recordLength
          let f' := (mem_fseek r.2 (pos' : Int) .seekSet).2
          decodeElemsLoop fuel size count pos' f' elems current inStructure'
    else (elems, current, f)

/-- `wasm_parse_structure_elements` (lines 379-635): -1 on an out-of-range
structure index; a no-op returning 0 when the structure is already fully
parsed; otherwise seek to the structure's offset, count its elements
(marking the structure parsed and returning 0 immediately when there are
none), allocate zeroed element slots, decode them, and record the number
decoded together with `is_fully_parsed`.  Only slot `structure_index` of the
structure array is ever written. -/
def wasm_parse_structure_elements (cache : LibraryCache) (structureIndex : Int) :
    LibraryCache × Int :=
  if structureIndex < 0 ∨ (cache.structure_count : Int) ≤ structureIndex then
    (cache, -1)
  else
    let idx := structureIndex.toNat
    let sc := cache.structures.getD idx {}
    if sc.is_fully_parsed then (cache, 0)
    else
      let f0 := (mem_fseek cache.memFile (sc.file_offset : Int) .seekSet).2
      let rc := countElemsLoop (cache.data_size + 1) cache.data_size
                  sc.file_offset f0 false 0
      if rc.1 = 0 then
        ({ cache with
             structures := cache.structures.set idx { sc with is_fully_parsed := true },
             memFile := rc.2 }, 0)
      else
        let elems0 := List.replicate rc.1 ({} : CachedElement)
        let f1 := (mem_fseek rc.2 (sc.file_offset : Int) .seekSet).2
        let rd := decodeElemsLoop (cache.data_size + 1) cache.data_size rc.1
                    sc.file_offset f1 elems0 0 false
        ({ cache with
             structures := cache.structures.set idx
               { sc with elements := rd.1,
                         element_count := rd.2.1,
                         is_fully_parsed := true },
             memFile := rd.2.2 }, 0)

/-! ### Element-level query functions.  Each getter validates the structure
index, lazily triggers the element parse, then validates the element index;
range and parse failures are reported through per-getter return values
(-1 for `wasm_get_element_count`, 1.0 for magnification, 1 for the array
column count) rather than through a distinct error channel. -/

/-- `wasm_get_element_count` (lines 641-654). -/
def wasm_get_element_count (cache : LibraryCache) (structureIndex : Int) :
    LibraryCache × Int :=
  if structureIndex < 0 ∨ (cache.structure_count : Int) ≤ structureIndex then
    (cache, -1)
  else
    let idx := structureIndex.toNat
    let sc := cache.structures.getD idx {}
    if ¬ sc.is_fully_parsed then
      let rp := wasm_parse_structure_elements cache structureIndex
      if ¬ rp.2 = 0 then (rp.1, -1)
      else (rp.1, ((rp.1.structures.getD idx {}).element_count : Int))
    else (cache, (sc.element_count : Int))

/-- `wasm_get_element_magnification` (lines 1092-1109): 1.0 on an invalid
structure index, on a failed lazy parse, and on an out-of-range element
index; otherwise the element's magnification field. -/
def wasm_get_element_magnification (cache : LibraryCache)
    (structureIndex elementIndex : Int) : LibraryCache × ℚ :=
  if structureIndex < 0 ∨ (cache.structure_count : Int) ≤ structureIndex then
    (cache, 1)
  else
    let idx := structureIndex.toNat
    let sc := cache.structures.getD idx {}
    let step : LibraryCache × Bool :=
      if ¬ sc.is_fully_parsed then
        let rp := wasm_parse_structure_elements cache structureIndex
        (rp.1, rp.2 = 0)
      else (cache, true)
    if ¬ step.2 then (step.1, 1)
    else
      let sc1 := step.1.structures.getD idx {}
      if elementIndex < 0 ∨ (sc1.element_count : Int) ≤ elementIndex then
        (step.1, 1)
      else
        (step.1, (sc1.elements.getD elementIndex.toNat {}).magnification)

/-- `wasm_get_element_array_columns` (lines 992-1009): 1 on an invalid
structure index, on a failed lazy parse, and on an out-of-range element
index; otherwise the element's `reference_data.ncol` field. -/
def wasm_get_element_array_columns (cache : LibraryCache)
    (structureIndex elementIndex : Int) : LibraryCache × Int :=
  if structureIndex < 0 ∨ (cache.structure_count : Int) ≤ structureIndex then
    (cache, 1)
  else
    let idx := structureIndex.toNat
    let sc := cache.structures.getD idx {}
    let step : LibraryCache × Bool :=
      if ¬ sc.is_fully_parsed then
        let rp := wasm_parse_structure_elements cache structureIndex
        (rp.1, rp.2 = 0)
      else (cache, true)
    if ¬ step.2 then (step.1, 1)
    else
      let sc1 := step.1.structures.getD idx {}
      if elementIndex < 0 ∨ (sc1.element_count : Int) ≤ elementIndex then
        (step.1, 1)
      else
        (step.1, ((sc1.elements.getD elementIndex.toNat {}).reference_data.ncol : Int))

/-! ## Step lemmas for the byte cursor -/

/-- Reading `k` bytes when at least `k` remain copies exactly the next `k`
bytes and advances the cursor by `k`, leaving the flags alone (for `k = 0`
the C returns immediately, which coincides with this formula). -/
theorem mem_fread_exact (k : Nat) (f : MemFile)
    (hle : f.position + k ≤ f.data.length) :
    mem_fread 1 k f =
      (k, (f.data.drop f.position).take k, { f with position := f.position + k }) := by
  rcases Nat.eq_zero_or_pos k with hk | hk
  · subst hk
    unfold mem_fread
    rw [if_pos (Or.inr rfl)]
    rfl
  · unfold mem_fread
    rw [if_neg (by omega), if_neg (by omega)]
    simp only [one_mul, Nat.div_one]
    rw [min_eq_left (by omega), if_neg (by omega)]

/-- Reading from a cursor with no bytes left returns zero elements and only
sets the EOF flag. -/
theorem mem_fread_at_end (sz count : Nat) (f : MemFile) (hsz : 0 < sz)
    (hcnt : 0 < count) (h : f.data.length - f.position = 0) :
    mem_fread sz count f = (0, [], { f with eofFlag := true }) := by
  unfold mem_fread
  rw [if_neg (by omega), if_pos h]

/-- A short read (some bytes left, but fewer than requested) copies and
consumes every remaining byte, sets the EOF flag, and reports
`available / sz` elements. -/
theorem mem_fread_short (sz count : Nat) (f : MemFile) (hsz : 0 < sz)
    (hcnt : 0 < count) (h0 : f.position < f.data.length)
    (hshort : f.data.length - f.position < sz * count) :
    mem_fread sz count f =
      ((f.data.length - f.position) / sz,
       (f.data.drop f.position).take (f.data.length - f.position),
       { f with position := f.data.length, eofFlag := true }) := by
  unfold mem_fread
  rw [if_neg (by omega), if_neg (by omega)]
  have hmin : min (sz * count) (f.data.length - f.position) =
      f.data.length - f.position := min_eq_right (by omega)
  have hp : f.position + (f.data.length - f.position) = f.data.length := by omega
  simp only [hmin, if_pos hshort, hp]

/-- `mem_fread_be16` when the next two bytes are `b0 b1`. -/
theorem mem_fread_be16_at (f : MemFile) (b0 b1 : Nat) (rest : List Nat)
    (h : f.data.drop f.position = b0 :: b1 :: rest) :
    mem_fread_be16 f =
      (some (b0 * 256 + b1), { f with position := f.position + 2 }) := by
  have hlen : f.position + 2 ≤ f.data.length := by
    have hl := congrArg List.length h
    simp only [List.length_drop, List.length_cons] at hl
    omega
  unfold mem_fread_be16
  rw [mem_fread_exact 2 f hlen]
  simp [h, be16val]

/-- `mem_fread_be32` when the next four bytes are `b0 b1 b2 b3`. -/
theorem mem_fread_be32_at (f : MemFile) (b0 b1 b2 b3 : Nat) (rest : List Nat)
    (h : f.data.drop f.position = b0 :: b1 :: b2 :: b3 :: rest) :
    mem_fread_be32 f =
      (some (((b0 * 256 + b1) * 256 + b2) * 256 + b3),
       { f with position := f.position + 4 }) := by
  have hlen : f.position + 4 ≤ f.data.length := by
    have hl := congrArg List.length h
    simp only [List.length_drop, List.length_cons] at hl
    omega
  unfold mem_fread_be32
  rw [mem_fread_exact 4 f hlen]
  simp [h, be32val]

/-- `mem_fread_be64` when the next eight bytes are known. -/
theorem mem_fread_be64_at (f : MemFile) (b0 b1 b2 b3 b4 b5 b6 b7 : Nat)
    (rest : List Nat)
    (h : f.data.drop f.position = b0 :: b1 :: b2 :: b3 :: b4 :: b5 :: b6 :: b7 :: rest) :
    mem_fread_be64 f =
      (some (excess64_to_ieee754 [b0, b1, b2, b3, b4, b5, b6, b7]),
       { f with position := f.position + 8 }) := by
  have hlen : f.position + 8 ≤ f.data.length := by
    have hl := congrArg List.length h
    simp only [List.length_drop, List.length_cons] at hl
    omega
  unfold mem_fread_be64
  rw [mem_fread_exact 8 f hlen]
  simp [h]

/-- `mem_fread_gdsii_header` when the next four bytes are known: returns the
big-endian type `c*256 + e` and the payload length as the wrapping `uint16_t`
subtraction `(a*256 + b) - 4`, leaving the cursor 4 bytes further, at the
start of the payload. -/
theorem mem_fread_gdsii_header_at (f : MemFile) (a b c e : Nat) (rest : List Nat)
    (h : f.data.drop f.position = a :: b :: c :: e :: rest) :
    mem_fread_gdsii_header f =
      (some (c * 256 + e, (a * 256 + b + 65532) % 65536),
       { f with position := f.position + 4 }) := by
  have h2 : ({ f with position := f.position + 2 } : MemFile).data.drop
      (f.position + 2) = c :: e :: rest := by
    show f.data.drop (f.position + 2) = c :: e :: rest
    rw [← List.drop_drop, h]
    rfl
  unfold mem_fread_gdsii_header
  rw [mem_fread_be16_at f a b (c :: e :: rest) h]
  simp only
  rw [mem_fread_be16_at _ c e rest h2]

/-- An absolute seek to an in-range target always succeeds. -/
theorem mem_fseek_set_ok (f : MemFile) (t : Nat) (ht : t ≤ f.data.length) :
    mem_fseek f (t : Int) .seekSet =
      (0, { f with position := t, eofFlag := false }) := by
  unfold mem_fseek
  rw [show seekTarget f (t : Int) .seekSet = (t : Int) from rfl]
  rw [if_neg (by omega)]
  simp

/-! ## C9 — `mem_fseek` range checking -/

/-- C9 (confirmed): for each of the three seek origins, a resolved target
outside `[0, buffer_size]` makes `mem_fseek` return -1 with the error flag
set and the position (and EOF flag) untouched, while an in-range target
makes it return 0, move the cursor to the target, and clear the EOF flag. -/
theorem mem_fseek_semantics (f : MemFile) (offset : Int) (whence : Whence) :
    ((seekTarget f offset whence < 0 ∨
        (f.data.length : Int) < seekTarget f offset whence) →
      mem_fseek f offset whence = (-1, { f with errorFlag := true })) ∧
    (0 ≤ seekTarget f offset whence →
      seekTarget f offset whence ≤ (f.data.length : Int) →
      mem_fseek f offset whence =
        (0, { f with position := (seekTarget f offset whence).toNat,
                     eofFlag := false })) := by
  constructor
  · intro h
    unfold mem_fseek
    rw [if_pos (by omega)]
  · intro h1 h2
    unfold mem_fseek
    rw [if_neg (by omega)]

/-- Witness for C9: on a 3-byte buffer at position 1 with the EOF flag set,
seeking to 5 fails leaving position 1, and seeking to 2 succeeds clearing
the EOF flag. -/
theorem mem_fseek_semantics_witness :
    mem_fseek { data := [0, 1, 2], position := 1, eofFlag := true, errorFlag := false }
        5 .seekSet =
      (-1, { data := [0, 1, 2], position := 1, eofFlag := true, errorFlag := true }) ∧
    mem_fseek { data := [0, 1, 2], position := 1, eofFlag := true, errorFlag := false }
        2 .seekSet =
      (0, { data := [0, 1, 2], position := 2, eofFlag := false, errorFlag := false }) := by
  constructor
  · exact (mem_fseek_semantics _ 5 .seekSet).1 (by decide)
  · exact (mem_fseek_semantics _ 2 .seekSet).2 (by decide) (by decide)

/-! ## C3 — `mem_fread` on short reads -/

/-- C3 (refuted as stated): on a 3-byte buffer, requesting 4 bytes does not
fail without consuming input — it returns 3 elements, hands back the 3
remaining bytes, and leaves the cursor at the end with the EOF flag set. -/
theorem mem_fread_truncation_counterexample :
    mem_fread 1 4 { data := [1, 2, 3], position := 0, eofFlag := false, errorFlag := false } =
      (3, [1, 2, 3],
       { data := [1, 2, 3], position := 3, eofFlag := true, errorFlag := false }) := by
  decide

/-- C3 (amended): when fewer than `size*count` bytes remain, `mem_fread`
performs a short read — it copies and consumes all remaining bytes, sets
the EOF flag, and returns `available / size` elements; only when zero bytes
remain does it return 0 elements without moving the cursor. -/
theorem mem_fread_short_read_behavior (sz count : Nat) (f : MemFile)
    (hsz : 0 < sz) (hcnt : 0 < count)
    (hshort : f.data.length - f.position < sz * count) :
    (f.position < f.data.length →
      mem_fread sz count f =
        ((f.data.length - f.position) / sz,
         (f.data.drop f.position).take (f.data.length - f.position),
         { f with position := f.data.length, eofFlag := true })) ∧
    (f.data.length ≤ f.position →
      mem_fread sz count f = (0, [], { f with eofFlag := true })) := by
  constructor
  · intro h0
    exact mem_fread_short sz count f hsz hcnt h0 hshort
  · intro h0
    exact mem_fread_at_end sz count f hsz hcnt (by omega)

/-- Witness for the amended C3: reading 3 two-byte elements from a 2-byte
buffer at position 1 yields 0 complete elements while still consuming the
single remaining byte. -/
theorem mem_fread_short_read_behavior_witness :
    mem_fread 2 3 { data := [5, 6], position := 1, eofFlag := false, errorFlag := false } =
      (0, [6], { data := [5, 6], position := 2, eofFlag := true, errorFlag := false }) := by
  have h := (mem_fread_short_read_behavior 2 3
    { data := [5, 6], position := 1, eofFlag := false, errorFlag := false }
    (by decide) (by decide) (by decide)).1 (by decide)
  simpa using h

/-- A successful `mem_fread_be16` expressed through the raw bytes. -/
theorem mem_fread_be16_ok (f : MemFile) (h : f.position + 2 ≤ f.data.length) :
    mem_fread_be16 f =
      (some (be16val ((f.data.drop f.position).take 2)),
       { f with position := f.position + 2 }) := by
  unfold mem_fread_be16
  rw [mem_fread_exact 2 f h]
  simp

/-- `mem_fread_be16` fails when fewer than 2 bytes remain. -/
theorem mem_fread_be16_fail (f : MemFile) (h : f.data.length < f.position + 2) :
    ∃ f', mem_fread_be16 f = (none, f') := by
  unfold mem_fread_be16
  rcases Nat.lt_or_ge f.position f.data.length with h0 | h0
  · rw [mem_fread_short 1 2 f (by omega) (by omega) h0 (by omega)]
    refine ⟨{ f with position := f.data.length, eofFlag := true }, ?_⟩
    rw [if_neg (by simp; omega)]
  · rw [mem_fread_at_end 1 2 f (by omega) (by omega) (by omega)]
    refine ⟨{ f with eofFlag := true }, ?_⟩
    rw [if_neg (by norm_num)]

/-! ## C4 — record-header reading -/

/-- C4 (refuted as stated): a record declaring total length 2 (< 4) does not
fail with an `InvalidLength` error — `mem_fread_gdsii_header` returns success
with the `uint16_t` subtraction wrapped to payload length 65534. -/
theorem read_header_wrap_counterexample :
    mem_fread_gdsii_header
        { data := [0, 2, 0, 2], position := 0, eofFlag := false, errorFlag := false } =
      (some (2, 65534),
       { data := [0, 2, 0, 2], position := 4, eofFlag := false, errorFlag := false }) := by
  decide

/-- C4 (amended): with at least 4 bytes remaining, `mem_fread_gdsii_header`
returns the big-endian record type and the payload length
`(total_length - 4) mod 2^16` — wrapping instead of failing when
`total_length < 4` — and leaves the cursor at the start of the payload;
with fewer than 4 bytes remaining it fails, returning no header. -/
theorem read_header_behavior (f : MemFile) (a b c e : Nat) (rest : List Nat) :
    (f.data.drop f.position = a :: b :: c :: e :: rest →
      mem_fread_gdsii_header f =
        (some (c * 256 + e, (a * 256 + b + 65532) % 65536),
         { f with position := f.position + 4 })) ∧
    (f.data.length < f.position + 4 →
      (mem_fread_gdsii_header f).1 = none) := by
  constructor
  · exact mem_fread_gdsii_header_at f a b c e rest
  · intro hshort
    rcases Nat.lt_or_ge f.data.length (f.position + 2) with hA | hA
    · obtain ⟨f1, h1⟩ := mem_fread_be16_fail f hA
      unfold mem_fread_gdsii_header
      rw [h1]
    · unfold mem_fread_gdsii_header
      rw [mem_fread_be16_ok f hA]
      simp only
      obtain ⟨f2, h2⟩ := mem_fread_be16_fail { f with position := f.position + 2 }
        (by simp only; omega)
      rw [h2]

/-- Witness for the amended C4: a well-formed BGNLIB header (total length 28,
type 0x0102) yields payload length 24 with the cursor at the payload, and a
2-byte buffer yields no header. -/
theorem read_header_behavior_witness :
    mem_fread_gdsii_header
        { data := [0, 28, 1, 2, 9, 9], position := 0, eofFlag := false, errorFlag := false } =
      (some (258, 24),
       { data := [0, 28, 1, 2, 9, 9], position := 4, eofFlag := false, errorFlag := false }) ∧
    (mem_fread_gdsii_header
        { data := [0, 28], position := 0, eofFlag := false, errorFlag := false }).1 = none := by
  constructor
  · have h := (read_header_behavior
      { data := [0, 28, 1, 2, 9, 9], position := 0, eofFlag := false, errorFlag := false }
      0 28 1 2 [9, 9]).1 (by decide)
    simpa using h
  · exact (read_header_behavior
      { data := [0, 28], position := 0, eofFlag := false, errorFlag := false }
      0 0 0 0 []).2 (by decide)

/-! ## Symbolic evaluation of library-cache construction

The lemmas below evaluate `wasm_create_library_cache` on the canonical
well-formed buffer family `bufLib nm up` — HEADER, BGNLIB, LIBNAME with
payload `nm`, UNITS with payload `up`, ENDLIB — with the name and UNITS
payloads left abstract. -/

/-- One 8-byte Excess-64 read expressed through `take`. -/
theorem mem_fread_be64_take (f : MemFile) (h : f.position + 8 ≤ f.data.length) :
    mem_fread_be64 f =
      (some (excess64_to_ieee754 ((f.data.drop f.position).take 8)),
       { f with position := f.position + 8 }) := by
  unfold mem_fread_be64
  rw [mem_fread_exact 8 f h]
  simp only [if_true]

/-- Rewinding to offset 0 always succeeds. -/
theorem mem_fseek_zero (f : MemFile) :
    mem_fseek f 0 .seekSet = (0, { f with position := 0, eofFlag := false }) := by
  unfold mem_fseek
  rw [show seekTarget f 0 .seekSet = 0 from rfl]
  rw [if_neg (by omega)]
  rfl

/-- The 2-byte big-endian encoding of a record's total length. -/
def lenB (m : Nat) : List Nat := [m / 256, m % 256]

/-- HEADER and BGNLIB records followed by a LIBNAME record with payload
`nm`. -/
def libnamePart (nm : List Nat) : List Nat :=
  [0, 6, 0, 2, 0, 3] ++ [0, 4, 1, 2] ++ lenB (nm.length + 4) ++ [2, 6] ++ nm

/-- The canonical library buffer: preamble with library name `nm`, a UNITS
record with payload `up`, and ENDLIB. -/
def bufLib (nm up : List Nat) : List Nat :=
  libnamePart nm ++ lenB (up.length + 4) ++ [3, 5] ++ up ++ [0, 4, 4, 0]

theorem libnamePart_length (nm : List Nat) :
    (libnamePart nm).length = 14 + nm.length := by
  simp [libnamePart, lenB]
  omega

theorem bufLib_length (nm up : List Nat) :
    (bufLib nm up).length = 22 + nm.length + up.length := by
  simp [bufLib, libnamePart, lenB]
  omega

/-- Evaluating `skipRecord` on a well-formed record whose header bytes and
in-bounds skip target are known. -/
theorem skipRecord_eval (expected pos : Nat) (f : MemFile) (a b c e : Nat)
    (rest : List Nat)
    (h : f.data.drop f.position = a :: b :: c :: e :: rest)
    (htype : c * 256 + e = expected)
    (hlen4 : 4 ≤ a * 256 + b) (hlt : a * 256 + b < 65536)
    (hseek : pos + 4 + (a * 256 + b - 4) ≤ f.data.length) :
    skipRecord expected pos f =
      some (pos + 4 + (a * 256 + b - 4),
            { f with position := pos + 4 + (a * 256 + b - 4), eofFlag := false }) := by
  unfold skipRecord
  rw [mem_fread_gdsii_header_at f a b c e rest h]
  simp only
  rw [if_neg (by omega)]
  have hmod : (a * 256 + b + 65532) % 65536 = a * 256 + b - 4 := by omega
  rw [hmod]
  rw [mem_fseek_set_ok _ _ (by simp only; omega)]

/-- Evaluating `readLibname` on a LIBNAME record carrying `nm` as payload:
the stored name is `nm`'s first `min(|nm|, 255)` bytes. -/
theorem readLibname_eval (pos : Nat) (f : MemFile) (a b : Nat) (nm tail : List Nat)
    (h : f.data.drop f.position = a :: b :: 2 :: 6 :: (nm ++ tail))
    (hab : a * 256 + b = nm.length + 4) (hlt : a * 256 + b < 65536)
    (hseek : pos + 4 + nm.length ≤ f.data.length) :
    readLibname pos f =
      some (nm.take (if nm.length < 255 then nm.length else 255),
            pos + 4 + nm.length,
            { f with position := pos + 4 + nm.length, eofFlag := false }) := by
  have hrest : f.data.drop (f.position + 4) = nm ++ tail := by
    rw [← List.drop_drop, h]
    rfl
  have hlen0 : f.data.length - f.position = 4 + nm.length + tail.length := by
    have h1 := congrArg List.length h
    simp only [List.length_drop, List.length_append, List.length_cons] at h1
    omega
  have hNL : (if nm.length < 255 then nm.length else 255) ≤ nm.length := by
    split <;> omega
  unfold readLibname
  rw [mem_fread_gdsii_header_at f a b 2 6 (nm ++ tail) h]
  dsimp only
  rw [if_neg (by norm_num [LIBNAME])]
  have hmod : (a * 256 + b + 65532) % 65536 = nm.length := by omega
  rw [hmod]
  have hexact : mem_fread 1 (if nm.length < 255 then nm.length else 255)
      { f with position := f.position + 4 } =
      ((if nm.length < 255 then nm.length else 255),
       nm.take (if nm.length < 255 then nm.length else 255),
       { f with position := f.position + 4 + (if nm.length < 255 then nm.length else 255) }) := by
    rw [mem_fread_exact _ _ (by simp only; omega)]
    simp only
    rw [hrest]
    rw [List.take_append_of_le_length (by omega)]
  rw [hexact]
  simp only
  rw [if_neg (by simp)]
  rw [mem_fseek_set_ok _ _ (by simp only; omega)]

/-- Evaluating the UNITS scan when it starts exactly at a UNITS record that
is followed by ENDLIB: a 16-byte payload is decoded as two Excess-64 reals;
any other payload length is skipped, leaving both accumulators at 0. -/
theorem unitsLoop_eval (fuel size pos : Nat) (f : MemFile) (a b : Nat) (up : List Nat)
    (hfuel : 2 ≤ fuel) (hsize : size = f.data.length) (hpos : pos = f.position)
    (hdrop : f.data.drop f.position = a :: b :: 3 :: 5 :: (up ++ [0, 4, 4, 0]))
    (hab : a * 256 + b = up.length + 4) (hlt : a * 256 + b < 65536)
    (heof : f.eofFlag = false) :
    unitsLoop fuel size pos f 0 0 =
      ((if up.length = 16 then excess64_to_ieee754 (up.take 8) else 0),
       (if up.length = 16 then excess64_to_ieee754 ((up.drop 8).take 8) else 0),
       ⟨f.data, if up.length = 16 then f.position + 20 else f.position + 8 + up.length,
        false, f.errorFlag⟩) := by
  subst hsize
  subst hpos
  have hlen0 : f.data.length - f.position = 8 + up.length := by
    have h1 := congrArg List.length hdrop
    simp only [List.length_drop, List.length_cons, List.length_append,
      List.length_nil] at h1
    omega
  have hmod : (a * 256 + b + 65532) % 65536 = up.length := by omega
  rw [show fuel = (fuel - 2) + 1 + 1 by omega]
  rw [unitsLoop]
  rw [if_pos (by omega)]
  rw [mem_fread_gdsii_header_at f a b 3 5 (up ++ [0, 4, 4, 0]) hdrop]
  dsimp only
  rw [hmod]
  by_cases hp : up.length = 16
  · rw [if_pos ⟨by norm_num [UNITS], hp⟩]
    have hd4 : ({ f with position := f.position + 4 } : MemFile).data.drop
        (f.position + 4) = up ++ [0, 4, 4, 0] := by
      show f.data.drop (f.position + 4) = up ++ [0, 4, 4, 0]
      rw [← List.drop_drop, hdrop]
      rfl
    rw [mem_fread_be64_take _ (by simp only; omega)]
    dsimp only
    rw [hd4, List.take_append_of_le_length (by omega)]
    have hd12 : ({ f with position := f.position + 4 + 8 } : MemFile).data.drop
        (f.position + 4 + 8) = up.drop 8 ++ [0, 4, 4, 0] := by
      show f.data.drop (f.position + 4 + 8) = up.drop 8 ++ [0, 4, 4, 0]
      rw [show f.position + 4 + 8 = (f.position + 4) + 8 from rfl, ← List.drop_drop, hd4]
      rw [List.drop_append_of_le_length (by omega)]
    rw [mem_fread_be64_take _ (by simp only; omega)]
    dsimp only
    rw [hd12, List.take_append_of_le_length (by simp; omega)]
    rw [if_pos hp, if_pos hp, if_pos hp]
    have hpos2 : f.position + 4 + 8 + 8 = f.position + 20 := by omega
    rw [hpos2, heof]
  · rw [if_neg (by simp [hp])]
    rw [if_neg (by norm_num [ENDLIB])]
    rw [mem_fseek_set_ok _ _ (by simp only; omega)]
    dsimp only
    rw [unitsLoop]
    rw [if_pos (by omega)]
    have hdE : ({ f with position := f.position + 4 + up.length, eofFlag := false } : MemFile).data.drop
        (f.position + 4 + up.length) = [0, 4, 4, 0] := by
      show f.data.drop (f.position + 4 + up.length) = [0, 4, 4, 0]
      rw [show f.position + 4 + up.length = f.position + (4 + up.length) by omega]
      rw [← List.drop_drop, hdrop]
      rw [show a :: b :: 3 :: 5 :: (up ++ [0, 4, 4, 0]) =
        ([a, b, 3, 5] ++ up) ++ [0, 4, 4, 0] by simp]
      exact List.drop_left' (by simp; omega)
    rw [mem_fread_gdsii_header_at _ 0 4 4 0 [] hdE]
    dsimp only
    rw [if_neg (by norm_num [UNITS]), if_pos (by norm_num [ENDLIB])]
    rw [if_neg hp, if_neg hp, if_neg hp]
    have hpos2 : f.position + 4 + up.length + 4 = f.position + 8 + up.length := by omega
    rw [hpos2]

/-- Full symbolic evaluation of `wasm_create_library_cache` on the canonical
buffer: construction always succeeds; the stored name is the first
`min(|nm|, 255)` bytes of the LIBNAME payload; the unit fields hold the two
Excess-64 decodes when the UNITS payload is exactly 16 bytes and stay 0
otherwise. -/
theorem create_bufLib (nm up : List Nat) (hn : nm.length + 4 < 65536)
    (hu : up.length + 4 < 65536) :
    wasm_create_library_cache (bufLib nm up) =
      some { name := nm.take (if nm.length < 255 then nm.length else 255),
             user_units_per_db_unit :=
               if up.length = 16 then excess64_to_ieee754 (up.take 8) else 0,
             meters_per_db_unit :=
               if up.length = 16 then excess64_to_ieee754 ((up.drop 8).take 8) else 0,
             structure_count := 0,
             structuresAllocated := false,
             structures := [],
             data_size := (bufLib nm up).length,
             memFile := { data := bufLib nm up, position := 0,
                          eofFlag := false, errorFlag := false } } := by
  have hS : (bufLib nm up).length = 22 + nm.length + up.length := bufLib_length nm up
  unfold wasm_create_library_cache
  rw [if_neg (by omega)]
  unfold mem_fopen
  rw [if_neg (by omega)]
  rw [Option.some_bind]
  rw [skipRecord_eval HEADER 0 _ 0 6 0 2
    (0 :: 3 :: ([0,4,1,2] ++ lenB (nm.length + 4) ++ [2,6] ++ nm ++
      lenB (up.length + 4) ++ [3,5] ++ up ++ [0,4,4,0]))
    (by simp [bufLib, libnamePart])
    (by norm_num [HEADER]) (by norm_num) (by norm_num) (by dsimp only; omega)]
  rw [Option.some_bind]
  norm_num
  rw [skipRecord_eval BGNLIB 6 _ 0 4 1 2
    (lenB (nm.length + 4) ++ [2,6] ++ nm ++
      lenB (up.length + 4) ++ [3,5] ++ up ++ [0,4,4,0])
    (by simp [bufLib, libnamePart])
    (by norm_num [BGNLIB]) (by norm_num) (by norm_num) (by dsimp only; omega)]
  rw [Option.some_bind]
  norm_num
  rw [readLibname_eval 10 _ ((nm.length + 4) / 256) ((nm.length + 4) % 256) nm
    (lenB (up.length + 4) ++ [3,5] ++ up ++ [0,4,4,0])
    (by simp [bufLib, libnamePart, lenB])
    (by omega) (by omega) (by dsimp only; omega)]
  rw [Option.some_bind]
  norm_num
  rw [unitsLoop_eval ((bufLib nm up).length + 1) ((bufLib nm up).length)
    (14 + nm.length)
    ⟨bufLib nm up, 14 + nm.length, false, false⟩
    ((up.length + 4) / 256) ((up.length + 4) % 256) up
    (by omega) rfl rfl
    (by
      show (bufLib nm up).drop (14 + nm.length) = _
      rw [bufLib]
      simp only [List.append_assoc]
      rw [List.drop_left' (by rw [libnamePart_length])]
      simp [lenB])
    (by omega) (by omega) rfl]
  refine ⟨rfl, rfl, ?_⟩
  rw [mem_fseek_zero]


/-! ## C1 — UNITS decoding via Excess-64 -/

/-- C1 (confirmed; the Excess-64 converter itself is modelled from the spec,
see `excess64_to_ieee754`): for every canonical library buffer whose UNITS
record carries a 16-byte payload, construction succeeds and decodes each
8-byte big-endian real with the GDSII Excess-64 encoding
`(-1)^sign * (mantissa / 2^56) * 16^(exponent - 64)`, storing the first real
as `user_units_per_db_unit` and the second as `meters_per_db_unit`. -/
theorem create_units_excess64 (nm up : List Nat) (hn : nm.length + 4 < 65536)
    (hup : up.length = 16) :
    ∃ cache, wasm_create_library_cache (bufLib nm up) = some cache ∧
      cache.user_units_per_db_unit = excess64_to_ieee754 (up.take 8) ∧
      cache.meters_per_db_unit = excess64_to_ieee754 ((up.drop 8).take 8) := by
  refine ⟨_, create_bufLib nm up hn (by omega), ?_, ?_⟩ <;> simp [hup]

/-- Witness for C1 at the UNITS payload used by the repository's own test
fixture (user units 0.001, 1 nm database units). -/
theorem create_units_excess64_witness :
    ∃ cache,
      wasm_create_library_cache (bufLib [88, 89]
        [63, 26, 54, 226, 235, 28, 67, 43, 62, 17, 230, 162, 142, 251, 26, 36]) =
        some cache ∧
      cache.user_units_per_db_unit =
        excess64_to_ieee754 [63, 26, 54, 226, 235, 28, 67, 43] ∧
      cache.meters_per_db_unit =
        excess64_to_ieee754 [62, 17, 230, 162, 142, 251, 26, 36] := by
  have h := create_units_excess64 [88, 89]
    [63, 26, 54, 226, 235, 28, 67, 43, 62, 17, 230, 162, 142, 251, 26, 36]
    (by norm_num) (by norm_num)
  simpa using h

/-! ## C6 — absence of UNITS validation -/

/-- C6 (refuted as stated): a canonical buffer whose UNITS record carries an
8-byte payload still constructs successfully — the record is skipped and both
unit fields remain 0.0; and a 16-byte UNITS payload of zeros, which decodes
to units of exactly 0 (not > 0), is also accepted with no
`InvalidNumericField` error. -/
theorem units_validation_counterexample :
    wasm_create_library_cache (bufLib [88, 89] [64, 64, 64, 64, 64, 64, 64, 64]) ≠
        none ∧
    ((wasm_create_library_cache
        (bufLib [88, 89] [64, 64, 64, 64, 64, 64, 64, 64])).getD
      emptyLib).user_units_per_db_unit = 0 ∧
    ((wasm_create_library_cache
        (bufLib [88, 89] [64, 64, 64, 64, 64, 64, 64, 64])).getD
      emptyLib).meters_per_db_unit = 0 ∧
    wasm_create_library_cache
        (bufLib [88, 89] [0, 0, 0, 0, 0, 0, 0, 0, 0, 0, 0, 0, 0, 0, 0, 0]) ≠
      none ∧
    ((wasm_create_library_cache
        (bufLib [88, 89] [0, 0, 0, 0, 0, 0, 0, 0, 0, 0, 0, 0, 0, 0, 0, 0])).getD
      emptyLib).user_units_per_db_unit = 0 := by
  have h1 := create_bufLib [88, 89] [64, 64, 64, 64, 64, 64, 64, 64]
    (by norm_num) (by norm_num)
  have h2 := create_bufLib [88, 89] [0, 0, 0, 0, 0, 0, 0, 0, 0, 0, 0, 0, 0, 0, 0, 0]
    (by norm_num) (by norm_num)
  rw [h1, h2]
  refine ⟨by simp, by norm_num, by norm_num, by simp, ?_⟩
  norm_num [excess64_to_ieee754]

/-- C6 (amended): library construction performs no UNITS validation — a
UNITS record whose payload length is not 16 bytes is skipped like any other
record, construction succeeds, and both unit fields keep their zero
initialization (which is not strictly positive); no error is reported. -/
theorem units_record_not_validated (nm up : List Nat) (hn : nm.length + 4 < 65536)
    (hu : up.length + 4 < 65536) (hne : ¬ up.length = 16) :
    ∃ cache, wasm_create_library_cache (bufLib nm up) = some cache ∧
      cache.user_units_per_db_unit = 0 ∧ cache.meters_per_db_unit = 0 ∧
      ¬ 0 < cache.user_units_per_db_unit := by
  refine ⟨_, create_bufLib nm up hn hu, ?_, ?_, ?_⟩ <;> simp [hne]

/-- Witness for the amended C6: a 12-byte UNITS payload is skipped and the
unit fields stay 0. -/
theorem units_record_not_validated_witness :
    ∃ cache,
      wasm_create_library_cache
          (bufLib [88, 89] [64, 0, 0, 0, 0, 0, 0, 0, 64, 0, 0, 0]) = some cache ∧
      cache.user_units_per_db_unit = 0 ∧ cache.meters_per_db_unit = 0 ∧
      ¬ 0 < cache.user_units_per_db_unit := by
  exact units_record_not_validated [88, 89] [64, 0, 0, 0, 0, 0, 0, 0, 64, 0, 0, 0]
    (by norm_num) (by norm_num) (by norm_num)

/-! ## C10 — silent name truncation at 255 bytes -/

/-- A concrete library whose single structure's STRNAME payload is 300 bytes
of `'A'` (0x41): HEADER, BGNLIB, LIBNAME "XY", UNITS, BGNSTR,
STRNAME(300 × 65), ENDSTR, ENDLIB. -/
def bufStrLong : List Nat :=
  [0, 6, 0, 2, 0, 3] ++ [0, 4, 1, 2] ++ [0, 6, 2, 6, 88, 89] ++
  ([0, 20, 3, 5] ++ List.replicate 16 64) ++
  [0, 4, 5, 2] ++ ([1, 48, 6, 6] ++ List.replicate 300 65) ++
  [0, 4, 7, 0] ++ [0, 4, 4, 0]

set_option maxRecDepth 4000

/-- C10 (confirmed): a LIBNAME payload of 255 bytes or more does not fail
library construction — the stored library name is silently cut to the first
255 payload bytes (shown for every canonical buffer with `|nm| ≥ 255`); and
a 300-byte STRNAME is likewise accepted by the structure scan, which stores
exactly the first 255 bytes of the structure name and still reports
success. -/
theorem name_truncated_at_255 (nm up : List Nat) (hn : nm.length + 4 < 65536)
    (hu : up.length + 4 < 65536) (hlong : 255 ≤ nm.length) :
    (∃ cache, wasm_create_library_cache (bufLib nm up) = some cache ∧
       cache.name = nm.take 255) ∧
    (wasm_create_library_cache bufStrLong).isSome = true ∧
    (wasm_parse_library_structures
      ((wasm_create_library_cache bufStrLong).getD emptyLib)).2 = 0 ∧
    (wasm_parse_library_structures
      ((wasm_create_library_cache bufStrLong).getD emptyLib)).1.structure_count = 1 ∧
    ((wasm_parse_library_structures
      ((wasm_create_library_cache bufStrLong).getD emptyLib)).1.structures.getD 0
        {}).name = List.replicate 255 65 := by
  refine ⟨⟨_, create_bufLib nm up hn hu, ?_⟩, ?_, ?_, ?_, ?_⟩
  · show nm.take (if nm.length < 255 then nm.length else 255) = nm.take 255
    rw [if_neg (by omega)]
  · decide
  · decide
  · decide
  · decide

/-- Witness for C10 at a 255-byte library name. -/
theorem name_truncated_at_255_witness :
    (∃ cache,
       wasm_create_library_cache (bufLib (List.replicate 255 88) []) = some cache ∧
       cache.name = (List.replicate 255 88).take 255) ∧
    (wasm_create_library_cache bufStrLong).isSome = true ∧
    (wasm_parse_library_structures
      ((wasm_create_library_cache bufStrLong).getD emptyLib)).2 = 0 ∧
    (wasm_parse_library_structures
      ((wasm_create_library_cache bufStrLong).getD emptyLib)).1.structure_count = 1 ∧
    ((wasm_parse_library_structures
      ((wasm_create_library_cache bufStrLong).getD emptyLib)).1.structures.getD 0
        {}).name = List.replicate 255 65 :=
  name_truncated_at_255 (List.replicate 255 88) [] (by simp) (by simp) (by simp)

/-! ## Structural lemmas about the lazy element parse -/

theorem getD_set_ne {α : Type} (l : List α) (i j : Nat) (a d : α) (h : i ≠ j) :
    (l.set i a).getD j d = l.getD j d := by
  simp [List.getD_eq_getElem?_getD, List.getElem?_set_ne h]

theorem getD_set_self {α : Type} (l : List α) (i : Nat) (a d : α)
    (h : i < l.length) :
    (l.set i a).getD i d = a := by
  simp [List.getD_eq_getElem?_getD, List.getElem?_set_self h]

/-- Every path through `wasm_parse_structure_elements` either leaves the
structure array untouched or replaces exactly slot `structureIndex` with a
fully-parsed structure. -/
theorem parse_elements_structures_cases (cache : LibraryCache)
    (structureIndex : Int) :
    (wasm_parse_structure_elements cache structureIndex).1.structures =
        cache.structures ∨
    ∃ sc', (wasm_parse_structure_elements cache structureIndex).1.structures =
        cache.structures.set structureIndex.toNat sc' ∧
      sc'.is_fully_parsed = true := by
  unfold wasm_parse_structure_elements
  split
  · left; rfl
  · simp only []
    split
    · left; rfl
    · split
      · right; exact ⟨_, rfl, rfl⟩
      · right; exact ⟨_, rfl, rfl⟩

/-- `wasm_parse_structure_elements` never changes `structure_count`. -/
theorem parse_elements_count (cache : LibraryCache) (structureIndex : Int) :
    (wasm_parse_structure_elements cache structureIndex).1.structure_count =
      cache.structure_count := by
  unfold wasm_parse_structure_elements
  split
  · rfl
  · simp only []
    split
    · rfl
    · split
      · rfl
      · rfl

/-- A return value of 0 implies the index was in range. -/
theorem parse_elements_success_valid (cache : LibraryCache) (structureIndex : Int)
    (h : (wasm_parse_structure_elements cache structureIndex).2 = 0) :
    ¬ (structureIndex < 0 ∨ (cache.structure_count : Int) ≤ structureIndex) := by
  intro hA
  unfold wasm_parse_structure_elements at h
  rw [if_pos hA] at h
  exact absurd h (by norm_num)

/-- After a successful call, the addressed structure is fully parsed. -/
theorem parse_elements_success_parsed (cache : LibraryCache) (structureIndex : Int)
    (hlen : cache.structure_count ≤ cache.structures.length)
    (h : (wasm_parse_structure_elements cache structureIndex).2 = 0) :
    ((wasm_parse_structure_elements cache structureIndex).1.structures.getD
      structureIndex.toNat {}).is_fully_parsed = true := by
  have hA := parse_elements_success_valid cache structureIndex h
  push_neg at hA
  have hidx : structureIndex.toNat < cache.structures.length := by omega
  have hA' : ¬ (structureIndex < 0 ∨
      (cache.structure_count : Int) ≤ structureIndex) := by omega
  unfold wasm_parse_structure_elements
  rw [if_neg hA']
  dsimp only
  by_cases hB : (cache.structures.getD structureIndex.toNat {}).is_fully_parsed
  · rw [if_pos hB]
    exact hB
  · rw [if_neg hB]
    split
    · rw [getD_set_self _ _ _ _ hidx]
    · rw [getD_set_self _ _ _ _ hidx]

/-! ## C8 — isolation of structures under the lazy parse -/

/-- C8 (confirmed): parsing the elements of structure `structureIndex` —
whether the call succeeds or fails — leaves every other structure slot, and
with it its cached name, parse state, element count, and every previously
decoded element, unchanged: the function only ever writes slot
`structureIndex` of the structure array. -/
theorem parse_elements_frame (cache : LibraryCache) (structureIndex : Int)
    (j : Nat) (d : StructureCache) (hj : j ≠ structureIndex.toNat) :
    (wasm_parse_structure_elements cache structureIndex).1.structures.getD j d =
      cache.structures.getD j d := by
  rcases parse_elements_structures_cases cache structureIndex with hc | ⟨sc', hc, hp⟩
  · rw [hc]
  · rw [hc, getD_set_ne _ _ _ _ _ (Ne.symm hj)]

/-- A library with three structures — A(valid), B(corrupt: its XY record
carries a 6-byte payload, which is not a multiple of 8), C(valid). -/
def bufABC : List Nat :=
  [0, 6, 0, 2, 0, 3] ++ [0, 4, 1, 2] ++ [0, 6, 2, 6, 88, 89] ++
  ([0, 20, 3, 5] ++ List.replicate 16 64) ++
  [0, 4, 5, 2] ++ [0, 6, 6, 6, 65, 65] ++
    [0, 4, 8, 0] ++ [0, 6, 13, 2, 0, 5] ++
    [0, 12, 16, 3, 0, 0, 0, 1, 0, 0, 0, 2] ++ [0, 4, 17, 0] ++ [0, 4, 7, 0] ++
  [0, 4, 5, 2] ++ [0, 6, 6, 6, 66, 66] ++
    [0, 4, 8, 0] ++ [0, 10, 16, 3, 9, 9, 9, 9, 9, 9] ++ [0, 4, 17, 0] ++
    [0, 4, 7, 0] ++
  [0, 4, 5, 2] ++ [0, 6, 6, 6, 67, 67] ++
    [0, 4, 8, 0] ++ [0, 6, 13, 2, 0, 7] ++
    [0, 12, 16, 3, 0, 0, 0, 3, 0, 0, 0, 4] ++ [0, 4, 17, 0] ++ [0, 4, 7, 0] ++
  [0, 4, 4, 0]

/-- The `bufABC` library after its structure scan. -/
def cacheABC : LibraryCache :=
  (wasm_parse_library_structures
    ((wasm_create_library_cache bufABC).getD emptyLib)).1

/-- Witness for C8: parsing corrupt structure B (index 1) of `bufABC` leaves
the slots of A (index 0) and C (index 2) untouched, and both A and C still
deliver their element counts afterwards. -/
theorem parse_elements_frame_witness :
    ((wasm_parse_structure_elements cacheABC 1).1.structures.getD 0 {} =
        cacheABC.structures.getD 0 {} ∧
      (wasm_parse_structure_elements cacheABC 1).1.structures.getD 2 {} =
        cacheABC.structures.getD 2 {}) ∧
    (wasm_get_element_count (wasm_parse_structure_elements cacheABC 1).1 0).2 = 1 ∧
    (wasm_get_element_count (wasm_parse_structure_elements cacheABC 1).1 2).2 = 1 := by
  refine ⟨⟨parse_elements_frame cacheABC 1 0 {} (by decide),
           parse_elements_frame cacheABC 1 2 {} (by decide)⟩, ?_, ?_⟩
  · decide
  · decide

/-! ## C7 — idempotence of the lazy parse -/

/-- C7 (confirmed): once `wasm_parse_structure_elements` has succeeded for a
structure, calling it again is a no-op — it returns 0 immediately and leaves
the entire cache (element counts and every decoded element field included)
exactly as it was after the first call.  The hypothesis
`structure_count ≤ structures.length` holds for every cache produced by
`wasm_parse_library_structures`, which allocates `count + 16` slots. -/
theorem parse_elements_idempotent (cache : LibraryCache) (structureIndex : Int)
    (hlen : cache.structure_count ≤ cache.structures.length)
    (h : (wasm_parse_structure_elements cache structureIndex).2 = 0) :
    wasm_parse_structure_elements
        (wasm_parse_structure_elements cache structureIndex).1 structureIndex =
      ((wasm_parse_structure_elements cache structureIndex).1, 0) := by
  have hA := parse_elements_success_valid cache structureIndex h
  push_neg at hA
  have hcount := parse_elements_count cache structureIndex
  have hparsed := parse_elements_success_parsed cache structureIndex hlen h
  conv_lhs => rw [wasm_parse_structure_elements]
  rw [if_neg (by rw [hcount]; omega)]
  rw [if_pos hparsed]

/-- Witness for C7: re-parsing structure A of `bufABC` after a successful
first parse returns success with the cache unchanged. -/
theorem parse_elements_idempotent_witness :
    wasm_parse_structure_elements (wasm_parse_structure_elements cacheABC 0).1 0 =
      ((wasm_parse_structure_elements cacheABC 0).1, 0) :=
  parse_elements_idempotent cacheABC 0 (by decide) (by decide)

/-! ## C5 — XY vertex decoding -/

/-- Spec-side reference decoding of an XY payload (from the specification's
words, for comparison with the source loop): consecutive pairs of 4-byte
big-endian two's-complement integers, each converted exactly to a double. -/
def specXYPairs : List Nat → List ℚ
  | b0 :: b1 :: b2 :: b3 :: c0 :: c1 :: c2 :: c3 :: rest =>
    (toInt32 (((b0 * 256 + b1) * 256 + b2) * 256 + b3) : ℚ) ::
    (toInt32 (((c0 * 256 + c1) * 256 + c2) * 256 + c3) : ℚ) ::
    specXYPairs rest
  | _ => []

/-- The source vertex loop agrees with the spec decoding: reading `k` pairs
from a cursor sitting exactly at a `8*k`-byte region decodes that region as
`specXYPairs` and advances the cursor past it. -/
theorem readPairsFlat_spec (k : Nat) (pre bs post : List Nat) (e er : Bool)
    (hlen : bs.length = 8 * k) :
    readPairsFlat k ⟨pre ++ (bs ++ post), pre.length, e, er⟩ =
      (specXYPairs bs, ⟨pre ++ (bs ++ post), pre.length + 8 * k, e, er⟩) := by
  induction k generalizing pre bs with
  | zero =>
    have hbs : bs = [] := List.length_eq_zero.mp (by omega)
    subst hbs
    simp [readPairsFlat, specXYPairs]
  | succ n ih =>
    rcases bs with _ | ⟨b0, bs⟩; · simp at hlen
    rcases bs with _ | ⟨b1, bs⟩; · simp at hlen; omega
    rcases bs with _ | ⟨b2, bs⟩; · simp at hlen; omega
    rcases bs with _ | ⟨b3, bs⟩; · simp at hlen; omega
    rcases bs with _ | ⟨c0, bs⟩; · simp at hlen; omega
    rcases bs with _ | ⟨c1, bs⟩; · simp at hlen; omega
    rcases bs with _ | ⟨c2, bs⟩; · simp at hlen; omega
    rcases bs with _ | ⟨c3, bs⟩; · simp at hlen; omega
    have hrest : bs.length = 8 * n := by
      simp only [List.length_cons] at hlen
      omega
    rw [readPairsFlat]
    have hd0 : (⟨pre ++ ((b0 :: b1 :: b2 :: b3 :: c0 :: c1 :: c2 :: c3 :: bs) ++ post),
        pre.length, e, er⟩ : MemFile).data.drop pre.length =
        b0 :: b1 :: b2 :: b3 :: (c0 :: c1 :: c2 :: c3 :: (bs ++ post)) := by
      show (pre ++ _).drop pre.length = _
      rw [List.drop_left]
      rfl
    rw [mem_fread_be32_at _ b0 b1 b2 b3 _ hd0]
    dsimp only
    have hd4 : (⟨pre ++ ((b0 :: b1 :: b2 :: b3 :: c0 :: c1 :: c2 :: c3 :: bs) ++ post),
        pre.length + 4, e, er⟩ : MemFile).data.drop (pre.length + 4) =
        c0 :: c1 :: c2 :: c3 :: (bs ++ post) := by
      show (pre ++ _).drop (pre.length + 4) = _
      rw [← List.drop_drop, List.drop_left]
      rfl
    rw [mem_fread_be32_at _ c0 c1 c2 c3 _ hd4]
    dsimp only
    have hdata : pre ++ ((b0 :: b1 :: b2 :: b3 :: c0 :: c1 :: c2 :: c3 :: bs) ++ post) =
        (pre ++ [b0, b1, b2, b3, c0, c1, c2, c3]) ++ (bs ++ post) := by
      simp
    have hpos : pre.length + 4 + 4 = (pre ++ [b0, b1, b2, b3, c0, c1, c2, c3]).length := by
      simp
    rw [show (⟨pre ++ ((b0 :: b1 :: b2 :: b3 :: c0 :: c1 :: c2 :: c3 :: bs) ++ post),
        pre.length + 4 + 4, e, er⟩ : MemFile) =
        ⟨(pre ++ [b0, b1, b2, b3, c0, c1, c2, c3]) ++ (bs ++ post),
         (pre ++ [b0, b1, b2, b3, c0, c1, c2, c3]).length, e, er⟩ by
      rw [hdata, hpos]]
    rw [ih (pre ++ [b0, b1, b2, b3, c0, c1, c2, c3]) bs hrest]
    rw [specXYPairs]
    have hfin : (pre ++ [b0, b1, b2, b3, c0, c1, c2, c3]).length + 8 * n =
        pre.length + 8 * (n + 1) := by
      simp
      omega
    rw [hfin, ← hdata]
    rfl

/-- A library with one structure holding a single BOUNDARY whose 32-byte XY
payload encodes the square (300000,400000), (400000,400000),
(400000,500000), (300000,500000). -/
def bufSquare : List Nat :=
  [0, 6, 0, 2, 0, 3] ++ [0, 4, 1, 2] ++ [0, 6, 2, 6, 88, 89] ++
  ([0, 20, 3, 5] ++ List.replicate 16 64) ++
  [0, 4, 5, 2] ++ [0, 6, 6, 6, 83, 81] ++
  [0, 4, 8, 0] ++ [0, 6, 13, 2, 0, 1] ++
  ([0, 36, 16, 3] ++
   [0, 4, 147, 224, 0, 6, 26, 128,
    0, 6, 26, 128, 0, 6, 26, 128,
    0, 6, 26, 128, 0, 7, 161, 32,
    0, 4, 147, 224, 0, 7, 161, 32]) ++
  [0, 4, 17, 0] ++ [0, 4, 7, 0] ++ [0, 4, 4, 0]

/-- `bufSquare` after library construction, structure scan, and the lazy
element parse of structure 0. -/
def cacheSquare : LibraryCache :=
  (wasm_parse_structure_elements
    (wasm_parse_library_structures
      ((wasm_create_library_cache bufSquare).getD emptyLib)).1 0).1

/-- C5 (confirmed): the XY decoder applied to a Boundary element with a
payload of `L = 8*k` bytes (`k ≥ 1`) produces exactly one polygon with
`L/8 = k` vertices (never `L/4`), each vertex read as a pair of 4-byte
big-endian signed integers converted exactly (`specXYPairs`); concretely,
the 32-byte XY payload of `bufSquare` decodes to exactly 4 vertices with
first vertex exactly (300000.0, 400000.0) — no 16-bit truncation. -/
theorem xy_vertex_decoding (k : Nat) (el : CachedElement) (pre bs post : List Nat)
    (e er : Bool) (hk : 1 ≤ k) (hlen : bs.length = 8 * k)
    (hkind : el.kind = ElementKind.boundary) :
    ((applyXY el (8 * k) ⟨pre ++ (bs ++ post), pre.length, e, er⟩).1.polygon_count = 1 ∧
     (applyXY el (8 * k) ⟨pre ++ (bs ++ post), pre.length, e, er⟩).1.polygons =
       [{ vertices := specXYPairs bs, vertex_count := k }]) ∧
    ((cacheSquare.structures.getD 0 {}).elements.getD 0 {}).polygons =
      [{ vertices := [300000, 400000, 400000, 400000, 400000, 500000,
                      300000, 500000],
         vertex_count := 4 }] := by
  have hdiv : 8 * k / 8 = k := by omega
  have happ : applyXY el (8 * k) ⟨pre ++ (bs ++ post), pre.length, e, er⟩ =
      ({ el with polygon_count := 1,
                 polygons := [{ vertices := specXYPairs bs, vertex_count := k }],
                 bounds := calculate_bounds_from_vertices (specXYPairs bs) k },
       ⟨pre ++ (bs ++ post), pre.length + 8 * k, e, er⟩) := by
    unfold applyXY
    rw [if_pos (by omega)]
    rw [hdiv, hkind]
    rw [if_pos (Or.inl rfl)]
    rw [if_pos (by omega)]
    rw [readPairsFlat_spec k pre bs post e er hlen]
  rw [happ]
  exact ⟨⟨rfl, rfl⟩, by decide⟩

/-- Witness for C5 at a single-vertex payload encoding (300000, 400000). -/
theorem xy_vertex_decoding_witness :
    ((applyXY { kind := ElementKind.boundary } 8
        ⟨([] : List Nat) ++ ([0, 4, 147, 224, 0, 6, 26, 128] ++ []),
         ([] : List Nat).length, false, false⟩).1.polygon_count = 1 ∧
     (applyXY { kind := ElementKind.boundary } 8
        ⟨([] : List Nat) ++ ([0, 4, 147, 224, 0, 6, 26, 128] ++ []),
         ([] : List Nat).length, false, false⟩).1.polygons =
       [{ vertices := specXYPairs [0, 4, 147, 224, 0, 6, 26, 128],
          vertex_count := 1 }]) ∧
    ((cacheSquare.structures.getD 0 {}).elements.getD 0 {}).polygons =
      [{ vertices := [300000, 400000, 400000, 400000, 400000, 500000,
                      300000, 500000],
         vertex_count := 4 }] := by
  have h := xy_vertex_decoding 1 { kind := ElementKind.boundary }
    [] [0, 4, 147, 224, 0, 6, 26, 128] [] false false (by norm_num) (by norm_num) rfl
  simpa using h

/-- `bufABC` after the structure scan and the (failing) lazy element parse of
the corrupt structure B, then of the valid structure A. -/
def cacheABCparsed : LibraryCache :=
  (wasm_parse_structure_elements cacheABC 0).1

/-- C2 counterexample: in the three-structure library `bufABC`, structure 0
has exactly 1 element, yet querying the magnification or array-column count
at the out-of-range element index 5 returns the sentinel values 1.0 and 1 —
there is no IndexOutOfRange error channel. -/
theorem index_out_of_range_counterexample :
    (wasm_get_element_count cacheABC 0).2 = 1 ∧
    (wasm_get_element_magnification cacheABC 0 5).2 = 1 ∧
    (wasm_get_element_array_columns cacheABC 0 5).2 = 1 := by
  decide

/-- C2 (corrected): for a parsed structure, an element index at or beyond
`element_count` makes `wasm_get_element_magnification` return the sentinel
1.0 and `wasm_get_element_array_columns` return the sentinel 1, with the
cache unchanged; no dedicated error value is produced. -/
theorem index_out_of_range_sentinels (cache : LibraryCache) (si ei : Int)
    (hsi0 : 0 ≤ si) (hsi : si < (cache.structure_count : Int))
    (hparsed : (cache.structures.getD si.toNat {}).is_fully_parsed = true)
    (hei : ((cache.structures.getD si.toNat {}).element_count : Int) ≤ ei) :
    wasm_get_element_magnification cache si ei = (cache, 1) ∧
    wasm_get_element_array_columns cache si ei = (cache, 1) := by
  constructor
  · unfold wasm_get_element_magnification
    rw [if_neg (by push_neg; exact ⟨hsi0, hsi⟩)]
    simp only [hparsed, not_true, if_false, ite_false, not_false_eq_true,
      ite_true, if_true]
    rw [if_pos (Or.inr hei)]
  · unfold wasm_get_element_array_columns
    rw [if_neg (by push_neg; exact ⟨hsi0, hsi⟩)]
    simp only [hparsed, not_true, if_false, ite_false, not_false_eq_true,
      ite_true, if_true]
    rw [if_pos (Or.inr hei)]

/-- Witness for C2 at the parsed `bufABC` cache, structure 0, element
index 5. -/
theorem index_out_of_range_sentinels_witness :
    (0 ≤ (0 : Int) ∧ (0 : Int) < (cacheABCparsed.structure_count : Int) ∧
     (cacheABCparsed.structures.getD (0 : Int).toNat {}).is_fully_parsed = true ∧
     ((cacheABCparsed.structures.getD (0 : Int).toNat {}).element_count : Int) ≤ 5) ∧
    (wasm_get_element_magnification cacheABCparsed 0 5 = (cacheABCparsed, 1) ∧
     wasm_get_element_array_columns cacheABCparsed 0 5 = (cacheABCparsed, 1)) := by
  refine ⟨⟨by decide, by decide, by decide, by decide⟩, ?_⟩
  exact index_out_of_range_sentinels cacheABCparsed 0 5 (by decide) (by decide)
    (by decide) (by decide)

end GdsWasm
